import Mathlib

/-!
Shallow embedding of `src/app.py` (whatsapp_bot_v4): the Conversational
Handoff Router.  Sessions, the seller's active-chat binding and the recent
orders log live in Redis in the source; here they form an explicit `Store`
passed through the handlers.  Outbound Twilio sends (`client.messages.create`)
become declarative `Effect.send` values; the single `resp.message(...)` call of
each control path becomes the `reply` field of the result.

Modelling conventions, noted where they matter:
* Python strings are Lean `String`s; `.lower()`, `.strip()`, `.split()`,
  `.isdigit()`/`int(...)`, `.title()` and the `in` substring test are modelled
  by executable functions below (ASCII-faithful, which covers every string the
  program manipulates).
* A session is a JSON dict in the source.  The `"data"` sub-dict is modelled as
  a record of `Option` fields (field absent = `none`).  The only place the
  source can raise a `KeyError` on a missing field that matters to control flow
  (reading `data["price"]` in `awaiting_quantity`) is modelled by the handler
  returning `none`.
* `uuid` order ids and `created_at` timestamps are nondeterministic opaque
  identifiers; they are omitted from `Order`, as is the `last_order_id` echo in
  the session data.  The JSON rendering of session data inside the seller
  notification body is elided from the body text.
-/

/-- Python `a in b` (substring containment) on strings. -/
def strContains (hay needle : String) : Bool :=
  (List.range (hay.data.length + 1)).any (fun i => needle.data.isPrefixOf (hay.data.drop i))

/-- Python `str.lower()` (character-wise, list-based so that it evaluates in
the kernel). -/
def pyLower (s : String) : String := ⟨s.data.map Char.toLower⟩

/-- Python `str.strip()` with no argument: drop leading and trailing
whitespace. -/
def pyStrip (s : String) : String :=
  ⟨((s.data.dropWhile Char.isWhitespace).reverse.dropWhile Char.isWhitespace).reverse⟩

/-- Python `str.startswith(pre)`. -/
def pyStartsWith (s pre : String) : Bool := pre.data.isPrefixOf s.data

def pySplitAux : List Char → List Char → List String
  | [], acc => if acc.isEmpty then [] else [⟨acc.reverse⟩]
  | c :: cs, acc =>
      if c.isWhitespace then
        (if acc.isEmpty then [] else [⟨acc.reverse⟩]) ++ pySplitAux cs []
      else
        pySplitAux cs (c :: acc)

/-- Python `str.split()` with no argument: split on whitespace runs, dropping
empty pieces. -/
def pySplit (s : String) : List String := pySplitAux s.data []

/-- Python `str.isdigit()` (ASCII digits). -/
def pyIsDigits (s : String) : Bool := !s.data.isEmpty && s.data.all Char.isDigit

/-- Python `int(s)` for a digit string. -/
def digitsToNat (s : String) : Nat := s.data.foldl (fun n c => n * 10 + (c.toNat - 48)) 0

/-- `s.isdigit()` guarding `int(s)`: the non-negative-integer parse used for
quantities and product choices. -/
def pyParseNat (s : String) : Option Nat :=
  if pyIsDigits s then some (digitsToNat s) else none

/-- Python `str.title()`: alphabetic characters are uppercased when the
preceding character is not alphabetic, lowercased otherwise. -/
def pyTitleAux : Bool → List Char → List Char
  | _, [] => []
  | prevAlpha, c :: cs =>
      (if c.isAlpha then (if prevAlpha then c.toLower else c.toUpper) else c)
        :: pyTitleAux c.isAlpha cs

def pyTitle (s : String) : String := ⟨pyTitleAux false s.data⟩

/-- The six session states written by `app.py` (`session["state"]`). -/
inductive BState where
  | initial
  | awaiting_product
  | awaiting_quantity
  | awaiting_location
  | handoff_seller
  | handoff_supervisor
deriving DecidableEq, Repr

/-- The `session["data"]` sub-dict; `none` = key absent. -/
structure SessData where
  product_id : Option Nat := none
  product_name : Option String := none
  price : Option Nat := none
  quantity : Option Nat := none
  total : Option Nat := none
  location : Option String := none
deriving DecidableEq, Repr

/-- A per-identity session as persisted under `session:<number>`. -/
structure Session where
  state : BState := .initial
  data : SessData := {}
  linked_seller : Option String := none
deriving DecidableEq, Repr

instance : Inhabited Session := ⟨{}⟩

/-- An order record as pushed onto `orders:recent` (uuid/timestamp omitted). -/
structure Order where
  buyer : String
  product_name : Option String
  quantity : Option Nat
  price : Option Nat
  delivery_charge : Nat
  total : Option Nat
  location : Option String
deriving DecidableEq, Repr

/-- An outbound message (`client.messages.create`); the `from_` number is
always `TWILIO_WHATSAPP_NUMBER` and is omitted. -/
inductive Effect where
  | send (recipient : String) (body : String)
deriving DecidableEq, Repr

/-- The Redis state the router reads and writes: the session map (association
list keyed by conversation identity, in scan order), the seller's single
active-chat binding, and the recent-orders list (newest first). -/
structure Store where
  sessions : List (String × Session) := []
  seller_active_chat : Option String := none
  orders : List Order := []
deriving DecidableEq, Repr

/-- Configured identities: `SELLER_NUMBER` and `SUPERVISOR_NUMBER` (the latter
may be the empty string, i.e. unconfigured). -/
structure Config where
  seller : String
  supervisor : String
deriving DecidableEq, Repr

/-- Result of handling one inbound message: new store, the TwiML reply to the
sender, and the outbound sends performed. -/
structure HandlerResult where
  store : Store
  reply : String
  effects : List Effect
deriving DecidableEq, Repr

/-- `get_session`: defaults to `{"state": "initial"}`. -/
def get_session (st : Store) (k : String) : Session :=
  (((st.sessions.find? (fun p => p.1 == k)).map (fun p => p.2))).getD {}

/-- `set_session`: overwrite in place if the key exists, else append. -/
def set_session (st : Store) (k : String) (v : Session) : Store :=
  { st with sessions :=
      if st.sessions.any (fun p => p.1 == k) then
        st.sessions.map (fun p => if p.1 == k then (k, v) else p)
      else
        st.sessions ++ [(k, v)] }

/-- `save_order`: `lpush` then `ltrim 0 999` (keep the newest 1000). -/
def save_order (st : Store) (o : Order) : Store :=
  { st with orders := (o :: st.orders).take 1000 }

/-- `PRODUCT_OPTIONS` as (id, name, price). -/
def PRODUCT_OPTIONS : List (Nat × String × Nat) :=
  [ (1, "aliengo kingsize black", 150),
    (2, "korobo 1 1/4\" blue", 100),
    (3, "wetop 1 1/4\" brown", 100),
    (4, "box with 50 booklets", 2300) ]

def DELIVERY_CHARGE : Nat := 200

def BUYER_HANDOFF_KEYWORDS : List String := ["agent", "human", "seller", "support"]

def SELLER_HELP_KEYWORDS : List String := ["#help", "#supervisor", "#assist"]

/-- `state in ("handoff_seller", "handoff_supervisor")`. -/
def isHandoff : BState → Bool
  | .handoff_seller => true
  | .handoff_supervisor => true
  | _ => false

/-- `list_handoff_buyers_for_seller`: identities whose session is in a handoff
state with `linked_seller` equal to the given seller. -/
def list_handoff_buyers_for_seller (st : Store) (seller : String) : List String :=
  (st.sessions.filter
    (fun p => isHandoff p.2.state && p.2.linked_seller == some seller)).map (fun p => p.1)

/-- `product_menu_text()`. -/
def product_menu_text : String :=
  "Hey there! 🌿 Welcome to our rolling paper shop!\n\nHere's what we have:\n"
    ++ String.join (PRODUCT_OPTIONS.map
        (fun p => toString p.1 ++ ". " ++ pyTitle p.2.1 ++ ": Ksh " ++ toString p.2.2 ++ "\n"))
    ++ "\nReply with the product number to order. Type 'help' to talk to a person or 'start' to restart."

/-- `get_product_by_choice`: numeric choice looks up the id (and does not fall
through to name matching); otherwise exact lowercase name match.  Returns the
(id, name, price) row. -/
def get_product_by_choice (choice : String) : Option (Nat × String × Nat) :=
  let c := pyLower (pyStrip choice)
  match pyParseNat c with
  | some pid => PRODUCT_OPTIONS.find? (fun p => p.1 == pid)
  | none => PRODUCT_OPTIONS.find? (fun p => pyLower p.2.1 == c)

/-- Seller notification body for a keyword-triggered buyer handoff (the JSON
dump of the session data is elided). -/
def buyer_handoff_summary (buyer msg : String) : String :=
  "🚨 New handoff request from " ++ buyer ++ "!\nLast message: " ++ msg
    ++ "\n\nThis is now your active conversation. Just reply to this chat to talk to the buyer.\n\n"
    ++ "To switch conversations, use the #switch command. Other commands: #bot (return buyer to bot), #end (close chat), #list, #help"

def optNatText : Option Nat → String
  | some n => toString n
  | none => "None"

def optStrText : Option String → String
  | some s => s
  | none => "None"

/-- Order confirmation reply sent to the buyer on completing the flow. -/
def order_confirm_reply (o : Order) : String :=
  "✅ Order recorded:\n" ++ optStrText o.product_name ++ " x " ++ optNatText o.quantity
    ++ "\nTotal: Ksh " ++ optNatText o.total ++ "\nLocation: " ++ optStrText o.location
    ++ "\n\nI've connected you with the seller, they will respond shortly to confirm your order details."

/-- Seller notification body for a completed order. -/
def order_handoff_summary (buyer : String) (o : Order) : String :=
  "🆕 New order / handoff from " ++ buyer ++ "!\n• Product: " ++ optStrText o.product_name
    ++ "\n• Qty: " ++ optNatText o.quantity ++ "\n• Location: " ++ optStrText o.location
    ++ "\n• Total: Ksh " ++ optNatText o.total
    ++ "\n\nThis is now your active conversation. Just reply to this chat to talk to the buyer.\n\n"
    ++ "Seller commands: #bot, #end, #list, #switch <buyer>, #help, #supervisor"

/-- The buyer-requests-human branch of `_handle_buyer_incoming` (lines
159-180): mark the session `handoff_seller`, link the seller, point the
seller's active chat at this buyer, notify the seller, acknowledge. -/
def buyer_escalate (cfg : Config) (st : Store) (buyer msg : String) (session : Session) :
    HandlerResult :=
  let session := { session with state := .handoff_seller, linked_seller := some cfg.seller }
  let st := set_session st buyer session
  let st := { st with seller_active_chat := some buyer }
  ⟨st, "I've connected you with the seller. They will respond shortly.",
    [.send cfg.seller (buyer_handoff_summary buyer msg)]⟩

/-- State dispatch of `_handle_buyer_incoming` (lines 182-274).  Returns `none`
exactly where the source would raise (`data["price"]` missing in
`awaiting_quantity`); the string-state fallback at line 272 is unreachable once
states are the enumeration above. -/
def buyer_state_dispatch (cfg : Config) (st : Store) (buyer msg : String) (session : Session) :
    Option HandlerResult :=
  match session.state with
  | .initial =>
      some ⟨set_session st buyer { session with state := .awaiting_product },
        product_menu_text, []⟩
  | .awaiting_product =>
      match get_product_by_choice msg with
      | none =>
          some ⟨st, "I didn't catch that product. Reply with a product number or 'menu' to see the list.", []⟩
      | some p =>
          let session := { session with
            state := .awaiting_quantity,
            data := { session.data with
              product_id := some p.1,
              product_name := some p.2.1,
              price := some p.2.2 } }
          some ⟨set_session st buyer session,
            "How many units of *" ++ pyTitle p.2.1 ++ "* do you want? (reply with a number)", []⟩
  | .awaiting_quantity =>
      match pyParseNat msg with
      | some qty =>
          if qty = 0 then
            some ⟨st, "Please enter a quantity greater than zero.", []⟩
          else
            match session.data.price with
            | none => none
            | some price =>
                let session := { session with
                  state := .awaiting_location,
                  data := { session.data with
                    quantity := some qty,
                    total := some (price * qty + DELIVERY_CHARGE) } }
                some ⟨set_session st buyer session,
                  "Thanks. Please share your delivery location (street/estate/pin).", []⟩
      | none =>
          some ⟨st, "Please enter a number for quantity (e.g., 2).", []⟩
  | .awaiting_location =>
      let data := { session.data with location := some msg }
      let order : Order :=
        ⟨buyer, data.product_name, data.quantity, data.price, DELIVERY_CHARGE,
          data.total, data.location⟩
      let st := save_order st order
      let session := { session with
        state := .handoff_seller,
        linked_seller := some cfg.seller,
        data := data }
      let st := set_session st buyer session
      let st := { st with seller_active_chat := some buyer }
      some ⟨st, order_confirm_reply order, [.send cfg.seller (order_handoff_summary buyer order)]⟩
  | .handoff_seller =>
      some ⟨st, "Message sent to seller.", [.send cfg.seller (buyer ++ " says: " ++ msg)]⟩
  | .handoff_supervisor =>
      some ⟨st, "Message sent to seller.", [.send cfg.seller (buyer ++ " says: " ++ msg)]⟩

/-- Keyword check then state dispatch, applied after the menu/start shortcuts
have acted on the session. -/
def buyer_after_start (cfg : Config) (st : Store) (buyer msg : String) (session : Session) :
    Option HandlerResult :=
  if BUYER_HANDOFF_KEYWORDS.any (fun k => strContains (pyLower msg) k) then
    some (buyer_escalate cfg st buyer msg session)
  else
    buyer_state_dispatch cfg st buyer msg session

/-- `_handle_buyer_incoming`: menu shortcut, `start` reset, handoff-keyword
check, then state dispatch. -/
def handle_buyer (cfg : Config) (st : Store) (buyer msg : String) : Option HandlerResult :=
  let msg_lower := pyLower msg
  let session := get_session st buyer
  if msg_lower = "menu" ∨ msg_lower = "catalog" ∨ msg_lower = "products" then
    some ⟨(if session.state = .initial then
            set_session st buyer { session with state := .awaiting_product }
          else st),
      product_menu_text, []⟩
  else if msg_lower = "start" then
    buyer_after_start cfg (set_session st buyer {}) buyer msg {}
  else
    buyer_after_start cfg st buyer msg session

/-- One iteration of the supervisor-escalation loop (`_handle_seller_incoming`
lines 287-297): force the buyer's session to `handoff_supervisor` and, only if
a supervisor number is configured, notify the supervisor. -/
def sellerEscalateStep (cfg : Config) (incoming : String) (acc : Store × List Effect)
    (b : String) : Store × List Effect :=
  let sess := get_session acc.1 b
  let sess := { sess with state := .handoff_supervisor, linked_seller := some cfg.seller }
  let st := set_session acc.1 b sess
  let effs :=
    if cfg.supervisor ≠ "" then
      acc.2 ++ [Effect.send cfg.supervisor
        ("⚠️ Seller requested supervisor for chat with " ++ b ++ ".\nSeller note: " ++ incoming)]
    else acc.2
  (st, effs)

/-- The supervisor-escalation branch (`_handle_seller_incoming` lines 282-299),
taken whenever the message contains one of `SELLER_HELP_KEYWORDS`. -/
def seller_escalate (cfg : Config) (st : Store) (incoming : String) : HandlerResult :=
  let buyers := list_handoff_buyers_for_seller st cfg.seller
  if buyers.isEmpty then
    ⟨st, "No active buyer conversation to escalate.", []⟩
  else
    let r := buyers.foldl (sellerEscalateStep cfg incoming) (st, [])
    ⟨r.1, "Supervisor notified. They’ll join shortly.", r.2⟩

/-- The `#list` branch (lines 302-315). -/
def seller_list (cfg : Config) (st : Store) : HandlerResult :=
  let buyers := list_handoff_buyers_for_seller st cfg.seller
  if buyers.isEmpty then
    ⟨st, "No active buyers in handoff.", []⟩
  else
    ⟨st, "Active buyers:\n" ++ String.intercalate "\n"
        (buyers.map (fun b =>
          b ++ " " ++ (if st.seller_active_chat = some b then "(Active)" else ""))),
      []⟩

/-- The `#switch` branch (lines 317-332): requires exactly two tokens and the
named buyer in a handoff state; only then rebinds the active chat. -/
def seller_switch (cfg : Config) (st : Store) (msg : String) : HandlerResult :=
  match pySplit msg with
  | [_, b] =>
      let s := get_session st b
      if isHandoff s.state then
        ⟨{ st with seller_active_chat := some b },
          "Switched active chat to " ++ b ++ ". Your next message will be sent to them.", []⟩
      else
        ⟨st, b ++ " is not in active handoff.", []⟩
  | _ => ⟨st, "Usage: #switch whatsapp:+...", []⟩

/-- The `#end` branch (lines 334-358): reset the named handoff buyer to
`awaiting_product`, drop `linked_seller`, notify the buyer, and clear the
active-chat binding exactly when it points at that buyer. -/
def seller_end (cfg : Config) (st : Store) (msg : String) : HandlerResult :=
  match pySplit msg with
  | [_, b] =>
      let s := get_session st b
      if isHandoff s.state then
        let s := { s with state := .awaiting_product, linked_seller := none }
        let st := set_session st b s
        let st := if st.seller_active_chat = some b then
            { st with seller_active_chat := none }
          else st
        ⟨st, "Closed chat with " ++ b ++ ".",
          [.send b "✅ Chat closed by seller. You're back with the bot. Type 'menu' to continue."]⟩
      else
        ⟨st, b ++ " is not in active handoff.", []⟩
  | _ => ⟨st, "Usage: #end whatsapp:+2547...", []⟩

/-- The non-command fallback (lines 364-381): relay to the bound buyer if the
binding exists and that buyer is still in handoff; a stale binding is cleared
and reported without relaying. -/
def seller_relay (cfg : Config) (st : Store) (incoming : String) : HandlerResult :=
  match st.seller_active_chat with
  | none =>
      ⟨st, "No active buyer conversation found. Use #list to see active buyers and #switch to select one.", []⟩
  | some active =>
      let s := get_session st active
      if isHandoff s.state then
        ⟨st, "✅ Sent to " ++ active ++ ".", [.send active ("👨‍💼 Seller: " ++ incoming)]⟩
      else
        ⟨{ st with seller_active_chat := none },
          "The chat with " ++ active ++ " is no longer in handoff. Please use a command or select a new active chat.",
          []⟩

/-- The `#help` reply text (lines 360-362). -/
def seller_help_text : String :=
  "Seller commands:\n#list\n#switch <buyer>\n#end <buyer>\n#supervisor"

/-- `_handle_seller_incoming`: branch order exactly as in the source — the
supervisor-keyword substring check comes first, then `#list`, `#switch`,
`#end`, `#help`, then the relay fallback. -/
def handle_seller (cfg : Config) (st : Store) (incoming : String) : HandlerResult :=
  let msg := pyStrip incoming
  let lower := pyLower msg
  if SELLER_HELP_KEYWORDS.any (fun k => strContains lower k) then
    seller_escalate cfg st incoming
  else if lower = "#list" then
    seller_list cfg st
  else if pyStartsWith lower "#switch" then
    seller_switch cfg st msg
  else if pyStartsWith lower "#end" then
    seller_end cfg st msg
  else if lower = "#help" then
    ⟨st, seller_help_text, []⟩
  else
    seller_relay cfg st incoming

/-- The `/supervisor_reply` endpoint (lines 384-401): on valid input, force the
buyer into `handoff_supervisor` (linking the seller) and forward the message;
on missing buyer/message, HTTP 400 with no state change. -/
def supervisor_reply (cfg : Config) (st : Store) (buyer message : String) :
    Store × List Effect :=
  if buyer = "" ∨ message = "" then
    (st, [])
  else
    let s := get_session st buyer
    let s := { s with state := .handoff_supervisor, linked_seller := some cfg.seller }
    (set_session st buyer s, [.send buyer ("Supervisor: " ++ message)])

/-- Stores reachable from the empty Redis state by any sequence of buyer
messages, seller messages and supervisor injections. -/
inductive Reachable (cfg : Config) : Store → Prop where
  | init : Reachable cfg {}
  | buyer_msg {st : Store} {b m : String} {r : HandlerResult} :
      Reachable cfg st → handle_buyer cfg st b m = some r → Reachable cfg r.store
  | seller_msg {st : Store} (m : String) :
      Reachable cfg st → Reachable cfg (handle_seller cfg st m).store
  | sup_msg {st : Store} (b m : String) :
      Reachable cfg st → Reachable cfg (supervisor_reply cfg st b m).1

/-- Fold several buyer messages through `handle_buyer`, keeping only the store
(used to state end-to-end ordering-flow runs). -/
def runBuyer (cfg : Config) (buyer : String) (msgs : List String) (st : Store) : Option Store :=
  msgs.foldlM (fun s m => (handle_buyer cfg s buyer m).map (fun r => r.store)) st

/-- The `linked_seller` invariant for a single session: the key is present
exactly when the state is one of the two handoff states. -/
def SessOK (s : Session) : Prop := s.linked_seller.isSome = isHandoff s.state

/-- The `linked_seller` invariant over every stored session. -/
def StoreOK (st : Store) : Prop := ∀ p ∈ st.sessions, SessOK p.2

theorem lookup_sessOK {l : List (String × Session)} (h : ∀ p ∈ l, SessOK p.2) (k : String) :
    SessOK (((l.find? (fun p => p.1 == k)).map (fun p => p.2)).getD {}) := by
  induction l with
  | nil => exact rfl
  | cons a t ih =>
      by_cases hk : (a.1 == k) = true
      · simp only [List.find?, hk]
        exact h a (List.mem_cons_self a t)
      · rw [Bool.not_eq_true] at hk
        simp only [List.find?, hk]
        exact ih (fun p hp => h p (List.mem_cons_of_mem a hp))

theorem get_session_ok {st : Store} (h : StoreOK st) (k : String) :
    SessOK (get_session st k) :=
  lookup_sessOK h k

theorem set_session_ok {st : Store} {k : String} {v : Session}
    (h : StoreOK st) (hv : SessOK v) : StoreOK (set_session st k v) := by
  intro p hp
  unfold set_session at hp
  simp only at hp
  split at hp
  · obtain ⟨q, hq, hfq⟩ := List.mem_map.mp hp
    by_cases hqk : (q.1 == k) = true
    · rw [if_pos hqk] at hfq
      rw [← hfq]
      exact hv
    · rw [if_neg hqk] at hfq
      rw [← hfq]
      exact h q hq
  · rcases List.mem_append.mp hp with hl | hr
    · exact h p hl
    · rw [List.mem_singleton.mp hr]
      exact hv

theorem buyer_escalate_ok {cfg : Config} {st : Store} {b m : String} {session : Session}
    (h : StoreOK st) : StoreOK (buyer_escalate cfg st b m session).store :=
  set_session_ok h rfl

theorem buyer_state_dispatch_ok {cfg : Config} {st : Store} {b m : String}
    {session : Session} {r : HandlerResult}
    (hst : StoreOK st) (hsess : SessOK session)
    (h : buyer_state_dispatch cfg st b m session = some r) : StoreOK r.store := by
  unfold SessOK at hsess
  obtain ⟨sstate, sdata, slink⟩ := session
  unfold buyer_state_dispatch at h
  cases sstate <;> dsimp only at h hsess
  · cases h
    exact set_session_ok hst hsess
  · cases hp : get_product_by_choice m <;> rw [hp] at h <;> dsimp only at h
    · cases h
      exact hst
    · cases h
      exact set_session_ok hst hsess
  · cases hq : pyParseNat m <;> rw [hq] at h <;> dsimp only at h
    case none =>
      cases h
      exact hst
    case some qty =>
      by_cases hz : qty = 0
      · rw [if_pos hz] at h
        cases h
        exact hst
      · rw [if_neg hz] at h
        cases hpr : sdata.price <;> rw [hpr] at h <;> dsimp only at h
        · cases h
        · cases h
          exact set_session_ok hst hsess
  · cases h
    exact set_session_ok hst rfl
  · cases h
    exact hst
  · cases h
    exact hst

theorem buyer_after_start_ok {cfg : Config} {st : Store} {b m : String}
    {session : Session} {r : HandlerResult}
    (hst : StoreOK st) (hsess : SessOK session)
    (h : buyer_after_start cfg st b m session = some r) : StoreOK r.store := by
  unfold buyer_after_start at h
  split at h
  · cases h
    exact buyer_escalate_ok hst
  · exact buyer_state_dispatch_ok hst hsess h

theorem handle_buyer_ok {cfg : Config} {st : Store} {b m : String} {r : HandlerResult}
    (hst : StoreOK st) (h : handle_buyer cfg st b m = some r) : StoreOK r.store := by
  unfold handle_buyer at h
  dsimp only at h
  split at h
  · cases h
    split
    case isTrue hinit =>
      refine set_session_ok hst ?_
      show (get_session st b).linked_seller.isSome = isHandoff .awaiting_product
      have := get_session_ok hst b
      unfold SessOK at this
      rw [this, hinit]
      rfl
    case isFalse => exact hst
  · split at h
    · exact buyer_after_start_ok (set_session_ok hst (show SessOK {} from rfl))
        (show SessOK {} from rfl) h
    · exact buyer_after_start_ok hst (get_session_ok hst b) h

theorem escalate_fold_ok (cfg : Config) (incoming : String) (bs : List String)
    (acc : Store × List Effect) (h : StoreOK acc.1) :
    StoreOK (bs.foldl (sellerEscalateStep cfg incoming) acc).1 := by
  induction bs generalizing acc with
  | nil => exact h
  | cons b t ih => exact ih _ (set_session_ok h rfl)

theorem handle_seller_ok {cfg : Config} {st : Store} {m : String}
    (hst : StoreOK st) : StoreOK (handle_seller cfg st m).store := by
  unfold handle_seller
  dsimp only
  split
  · unfold seller_escalate
    dsimp only
    split
    · exact hst
    · exact escalate_fold_ok _ _ _ _ hst
  split
  · unfold seller_list
    dsimp only
    split
    · exact hst
    · exact hst
  split
  · unfold seller_switch
    dsimp only
    split
    · split
      · exact hst
      · exact hst
    · exact hst
  split
  · unfold seller_end
    dsimp only
    split
    · split
      · split
        · exact set_session_ok hst rfl
        · exact set_session_ok hst rfl
      · exact hst
    · exact hst
  split
  · exact hst
  · unfold seller_relay
    dsimp only
    split
    · exact hst
    · split
      · exact hst
      · exact hst

theorem supervisor_reply_ok {cfg : Config} {st : Store} {b m : String}
    (hst : StoreOK st) : StoreOK (supervisor_reply cfg st b m).1 := by
  unfold supervisor_reply
  split
  · exact hst
  · exact set_session_ok hst rfl

theorem reachable_storeOK {cfg : Config} {st : Store} (h : Reachable cfg st) : StoreOK st := by
  induction h with
  | init => intro p hp; exact absurd hp (List.not_mem_nil p)
  | buyer_msg _ he ih => exact handle_buyer_ok ih he
  | seller_msg m _ ih => exact handle_seller_ok ih
  | sup_msg b m _ ih => exact supervisor_reply_ok ih

/-- A string containing one of the buyer handoff keywords is none of the
`menu`/`catalog`/`products`/`start` shortcut strings. -/
theorem keyword_not_shortcut {s : String}
    (h : (BUYER_HANDOFF_KEYWORDS.any fun k => strContains s k) = true) :
    s ≠ "menu" ∧ s ≠ "catalog" ∧ s ≠ "products" ∧ s ≠ "start" := by
  refine ⟨?_, ?_, ?_, ?_⟩ <;> rintro rfl <;> revert h <;> decide

/-- Whenever the lowercased buyer message contains a handoff keyword,
`handle_buyer` takes the escalation branch, whatever the current state. -/
theorem handle_buyer_keyword_escalates (cfg : Config) (st : Store) (buyer msg : String)
    (h : (BUYER_HANDOFF_KEYWORDS.any fun k => strContains (pyLower msg) k) = true) :
    handle_buyer cfg st buyer msg =
      some (buyer_escalate cfg st buyer msg (get_session st buyer)) := by
  obtain ⟨h1, h2, h3, h4⟩ := keyword_not_shortcut h
  unfold handle_buyer
  dsimp only
  rw [if_neg (fun hc => hc.elim h1 (fun hc2 => hc2.elim h2 h3)), if_neg h4]
  unfold buyer_after_start
  rw [if_pos h]
/-- Concrete configuration used by the concrete instances below. -/
def cfg0 : Config := ⟨"whatsapp:+14155550100", "whatsapp:+14155550199"⟩

/-- The same seller identity with no supervisor configured. -/
def cfgNoSup : Config := ⟨"whatsapp:+14155550100", ""⟩

/-- A session already handed off to the configured seller. -/
def handoffSess : Session := { state := .handoff_seller, linked_seller := some cfg0.seller }

/-- A session already escalated to the supervisor. -/
def supSess : Session := { state := .handoff_supervisor, linked_seller := some cfg0.seller }

/-- C10: buyer handoff-keyword detection is case-insensitive substring
containment and runs before state dispatch: any message whose lowercase form
contains a keyword triggers the escalation branch in every state — setting the
session to `handoff_seller`, binding the seller's active chat to this buyer,
notifying the seller, and replying with the connecting acknowledgment. -/
theorem C10_keyword_substring_escalates (cfg : Config) (st : Store) (buyer msg : String)
    (h : (BUYER_HANDOFF_KEYWORDS.any fun k => strContains (pyLower msg) k) = true) :
    handle_buyer cfg st buyer msg =
      some ⟨{ set_session st buyer
                { get_session st buyer with
                    state := .handoff_seller, linked_seller := some cfg.seller }
              with seller_active_chat := some buyer },
            "I've connected you with the seller. They will respond shortly.",
            [.send cfg.seller (buyer_handoff_summary buyer msg)]⟩ := by
  rw [handle_buyer_keyword_escalates cfg st buyer msg h]
  rfl

/-- Store with a buyer mid-flow in `awaiting_location`. -/
def stC10 : Store :=
  { sessions := [("whatsapp:+10",
      { state := .awaiting_location,
        data := { product_id := some 2, product_name := some "korobo 1 1/4\" blue",
                  price := some 100, quantity := some 3, total := some 500 } })] }

/-- C10 witness: a delivery-location answer containing "SUPPORT" escalates
instead of completing the order. -/
theorem C10_keyword_substring_escalates_witness :
    ((BUYER_HANDOFF_KEYWORDS.any fun k => strContains (pyLower "Near the SUPPORT desk") k) = true)
    ∧ handle_buyer cfg0 stC10 "whatsapp:+10" "Near the SUPPORT desk" =
        some ⟨{ set_session stC10 "whatsapp:+10"
                  { get_session stC10 "whatsapp:+10" with
                      state := .handoff_seller, linked_seller := some cfg0.seller }
                with seller_active_chat := some "whatsapp:+10" },
              "I've connected you with the seller. They will respond shortly.",
              [.send cfg0.seller (buyer_handoff_summary "whatsapp:+10" "Near the SUPPORT desk")]⟩ :=
  ⟨by decide,
   C10_keyword_substring_escalates cfg0 stC10 "whatsapp:+10" "Near the SUPPORT desk" (by decide)⟩
/-- Store with one buyer already escalated to the supervisor. -/
def stC1 : Store := { sessions := [("whatsapp:+2", supSess)] }

/-- C1 counterexample: a buyer already in a HANDOFF_* state (here
`handoff_supervisor`) who sends a "request human" keyword is *not* merely
relayed: the escalation branch runs again — the notify-seller side effect is
emitted, the active-chat binding is rebound, the session state changes to
`handoff_seller`, and the reply is the connecting acknowledgment rather than
the relay acknowledgment. -/
theorem C1_counterexample :
    handle_buyer cfg0 stC1 "whatsapp:+2" "agent" =
      some ⟨{ sessions := [("whatsapp:+2",
                { state := .handoff_seller, linked_seller := some cfg0.seller })],
              seller_active_chat := some "whatsapp:+2", orders := [] },
            "I've connected you with the seller. They will respond shortly.",
            [.send cfg0.seller (buyer_handoff_summary "whatsapp:+2" "agent")]⟩
    ∧ (get_session stC1 "whatsapp:+2").state = .handoff_supervisor
    ∧ "I've connected you with the seller. They will respond shortly." ≠ "Message sent to seller." :=
  ⟨rfl, rfl, by decide⟩

/-- C1 (amended): for a buyer whose session is already in HANDOFF_AGENT or
HANDOFF_SUPERVISOR, a message matching a "request human" keyword re-runs the
escalation path rather than only relaying: it re-emits the notify-seller side
effect, rebinds the seller's active chat to this buyer, and (re)sets the state
to `handoff_seller` — demoting a `handoff_supervisor` session. -/
theorem C1_handoff_keyword_reescalates (cfg : Config) (st : Store) (buyer msg : String)
    (hstate : isHandoff (get_session st buyer).state = true)
    (h : (BUYER_HANDOFF_KEYWORDS.any fun k => strContains (pyLower msg) k) = true) :
    handle_buyer cfg st buyer msg =
      some ⟨{ set_session st buyer
                { get_session st buyer with
                    state := .handoff_seller, linked_seller := some cfg.seller }
              with seller_active_chat := some buyer },
            "I've connected you with the seller. They will respond shortly.",
            [.send cfg.seller (buyer_handoff_summary buyer msg)]⟩ := by
  rw [handle_buyer_keyword_escalates cfg st buyer msg h]
  rfl

/-- C1 witness: the amended claim at the concrete already-escalated store. -/
theorem C1_handoff_keyword_reescalates_witness :
    (isHandoff (get_session stC1 "whatsapp:+2").state = true)
    ∧ ((BUYER_HANDOFF_KEYWORDS.any fun k => strContains (pyLower "agent") k) = true)
    ∧ handle_buyer cfg0 stC1 "whatsapp:+2" "agent" =
        some ⟨{ set_session stC1 "whatsapp:+2"
                  { get_session stC1 "whatsapp:+2" with
                      state := .handoff_seller, linked_seller := some cfg0.seller }
                with seller_active_chat := some "whatsapp:+2" },
              "I've connected you with the seller. They will respond shortly.",
              [.send cfg0.seller (buyer_handoff_summary "whatsapp:+2" "agent")]⟩ :=
  ⟨rfl, by decide,
   C1_handoff_keyword_reescalates cfg0 stC1 "whatsapp:+2" "agent" rfl (by decide)⟩

/-- C2: in every store reachable by buyer messages, seller messages and
supervisor injections, every session (stored or defaulted) has `linked_seller`
present exactly when its state is `handoff_seller` or `handoff_supervisor`. -/
theorem C2_linked_iff_handoff (cfg : Config) (st : Store) (h : Reachable cfg st) (k : String) :
    (get_session st k).linked_seller.isSome = true ↔
      ((get_session st k).state = .handoff_seller
        ∨ (get_session st k).state = .handoff_supervisor) := by
  have hs := get_session_ok (reachable_storeOK h) k
  unfold SessOK at hs
  rw [hs]
  generalize (get_session st k).state = s
  cases s <;> decide

/-- The store produced by a single keyword handoff from the empty store. -/
def stC2w : Store :=
  { sessions := [("whatsapp:+7",
      { state := .handoff_seller, linked_seller := some cfg0.seller })],
    seller_active_chat := some "whatsapp:+7" }

/-- C2 witness: the invariant instantiated at a concretely reachable store. -/
theorem C2_linked_iff_handoff_witness :
    (get_session stC2w "whatsapp:+7").linked_seller.isSome = true ↔
      ((get_session stC2w "whatsapp:+7").state = .handoff_seller
        ∨ (get_session stC2w "whatsapp:+7").state = .handoff_supervisor) :=
  C2_linked_iff_handoff cfg0 stC2w
    (Reachable.buyer_msg Reachable.init
      (show handle_buyer cfg0 {} "whatsapp:+7" "agent" =
        some ⟨stC2w, "I've connected you with the seller. They will respond shortly.",
          [.send cfg0.seller (buyer_handoff_summary "whatsapp:+7" "agent")]⟩ from rfl))
    "whatsapp:+7"
/-- Store with one buyer in seller handoff (no active-chat binding). -/
def stC3 : Store := { sessions := [("whatsapp:+3", handoffSess)] }

/-- C3: the seller message `#help` is captured by the supervisor-escalation
keyword check (`"#help" ∈ SELLER_HELP_KEYWORDS`) before the dedicated
`lower == "#help"` branch can run, so the reply is the escalation reply — not
the static command summary — and a handed-off buyer is escalated to
`handoff_supervisor`.  The summary branch at line 360 of `app.py` is dead
code, contradicting it. -/
theorem C3_hash_help_is_shadowed_by_escalation :
    (handle_seller cfg0 stC3 "#help").reply = "Supervisor notified. They’ll join shortly."
    ∧ (handle_seller cfg0 stC3 "#help").reply ≠ seller_help_text
    ∧ (get_session (handle_seller cfg0 stC3 "#help").store "whatsapp:+3").state
        = .handoff_supervisor
    ∧ (handle_seller cfg0 stC3 "#help").effects =
        [.send cfg0.supervisor
          ("⚠️ Seller requested supervisor for chat with whatsapp:+3.\nSeller note: #help")] :=
  ⟨rfl, by decide, rfl, rfl⟩

/-- Store with a buyer in handoff bound as the seller's active chat. -/
def stRelayTarget : Store :=
  { sessions := [("whatsapp:+4", handoffSess)], seller_active_chat := some "whatsapp:+4" }

/-- C4 counterexample: the unrecognized command `#foo` is not answered with an
"unknown command" notice — it is relayed to the bound buyer like any plain
message. -/
theorem C4_counterexample :
    handle_seller cfg0 stRelayTarget "#foo" =
      ⟨stRelayTarget, "✅ Sent to whatsapp:+4.", [.send "whatsapp:+4" "👨‍💼 Seller: #foo"]⟩
    ∧ pyStartsWith "#foo" "#" = true :=
  ⟨rfl, rfl⟩

/-- A seller message matching none of the command checks falls through to the
active-chat relay logic. -/
theorem handle_seller_fallback (cfg : Config) (st : Store) (msg : String)
    (hkw : (SELLER_HELP_KEYWORDS.any fun k => strContains (pyLower (pyStrip msg)) k) = false)
    (hlist : pyLower (pyStrip msg) ≠ "#list")
    (hsw : pyStartsWith (pyLower (pyStrip msg)) "#switch" = false)
    (hend : pyStartsWith (pyLower (pyStrip msg)) "#end" = false) :
    handle_seller cfg st msg = seller_relay cfg st msg := by
  have hhelp : pyLower (pyStrip msg) ≠ "#help" := by
    intro he
    rw [he] at hkw
    exact absurd hkw (by decide)
  unfold handle_seller
  dsimp only
  rw [if_neg (by simp [hkw]), if_neg hlist, if_neg (by simp [hsw]),
    if_neg (by simp [hend]), if_neg hhelp]

/-- C4 (amended): an agent message starting with `#` that is none of the
recognized commands (supervisor-escalation keywords, `#list`, `#switch…`,
`#end…`, `#help`) is not answered with an "unknown command" notice; it is
treated as a plain message and goes through the active-chat relay logic
(relayed to the bound handoff buyer, else the no-active-chat or stale-binding
reply). -/
theorem C4_unrecognized_hash_falls_through_to_relay (cfg : Config) (st : Store) (msg : String)
    (hhash : pyStartsWith (pyLower (pyStrip msg)) "#" = true)
    (hkw : (SELLER_HELP_KEYWORDS.any fun k => strContains (pyLower (pyStrip msg)) k) = false)
    (hlist : pyLower (pyStrip msg) ≠ "#list")
    (hsw : pyStartsWith (pyLower (pyStrip msg)) "#switch" = false)
    (hend : pyStartsWith (pyLower (pyStrip msg)) "#end" = false) :
    handle_seller cfg st msg = seller_relay cfg st msg :=
  handle_seller_fallback cfg st msg hkw hlist hsw hend

/-- C4 witness: `#foo` with a validly bound buyer is relayed. -/
theorem C4_unrecognized_hash_falls_through_to_relay_witness :
    (pyStartsWith (pyLower (pyStrip "#foo")) "#" = true)
    ∧ handle_seller cfg0 stRelayTarget "#foo" = seller_relay cfg0 stRelayTarget "#foo" :=
  ⟨by decide,
   C4_unrecognized_hash_falls_through_to_relay cfg0 stRelayTarget "#foo"
    (by decide) (by decide) (by decide) (by decide) (by decide)⟩
/-- C5 counterexample: with no supervisor configured and a buyer in handoff,
the escalation command still replies "Supervisor notified. They’ll join
shortly." — it does not state that the supervisor is not configured — while no
notification is actually sent. -/
theorem C5_counterexample :
    (handle_seller cfgNoSup stC3 "#supervisor").reply = "Supervisor notified. They’ll join shortly."
    ∧ (handle_seller cfgNoSup stC3 "#supervisor").effects = []
    ∧ list_handoff_buyers_for_seller stC3 cfgNoSup.seller = ["whatsapp:+3"]
    ∧ cfgNoSup.supervisor = "" :=
  ⟨rfl, rfl, rfl, rfl⟩

/-- With no supervisor configured, the escalation loop emits no effects. -/
theorem escalate_fold_effects (cfg : Config) (hsup : cfg.supervisor = "")
    (incoming : String) (bs : List String) (acc : Store × List Effect) :
    (bs.foldl (sellerEscalateStep cfg incoming) acc).2 = acc.2 := by
  induction bs generalizing acc with
  | nil => rfl
  | cons b t ih =>
      rw [List.foldl_cons, ih]
      unfold sellerEscalateStep
      dsimp only
      rw [if_neg (show ¬(cfg.supervisor ≠ "") from fun hne => hne hsup)]

/-- C5 (amended): when the supervisor identity is not configured, a
supervisor-escalation command with at least one handoff buyer linked to the
seller emits no notification effect, yet still replies "Supervisor notified.
They’ll join shortly." — wrongly implying the supervisor was notified instead
of reporting the missing configuration.  The condition is not fatal: a reply is
always produced and every other branch of the handler is unaffected. -/
theorem C5_unconfigured_supervisor_still_claims_notified (cfg : Config) (st : Store)
    (msg : String) (hsup : cfg.supervisor = "")
    (hkw : (SELLER_HELP_KEYWORDS.any fun k => strContains (pyLower (pyStrip msg)) k) = true)
    (hbuyers : list_handoff_buyers_for_seller st cfg.seller ≠ []) :
    (handle_seller cfg st msg).reply = "Supervisor notified. They’ll join shortly."
    ∧ (handle_seller cfg st msg).effects = [] := by
  have hbe : (list_handoff_buyers_for_seller st cfg.seller).isEmpty = false := by
    cases hb : list_handoff_buyers_for_seller st cfg.seller with
    | nil => exact absurd hb hbuyers
    | cons a t => rfl
  unfold handle_seller
  dsimp only
  rw [if_pos hkw]
  unfold seller_escalate
  dsimp only
  rw [if_neg (by simp [hbe])]
  exact ⟨rfl, escalate_fold_effects cfg hsup msg _ _⟩

/-- C5 witness: the amended claim at the concrete unconfigured setup. -/
theorem C5_unconfigured_supervisor_still_claims_notified_witness :
    (cfgNoSup.supervisor = "")
    ∧ (list_handoff_buyers_for_seller stC3 cfgNoSup.seller ≠ [])
    ∧ (handle_seller cfgNoSup stC3 "#supervisor").reply = "Supervisor notified. They’ll join shortly."
    ∧ (handle_seller cfgNoSup stC3 "#supervisor").effects = [] :=
  ⟨rfl, by decide,
   (C5_unconfigured_supervisor_still_claims_notified cfgNoSup stC3 "#supervisor"
      rfl (by decide) (by decide)).1,
   (C5_unconfigured_supervisor_still_claims_notified cfgNoSup stC3 "#supervisor"
      rfl (by decide) (by decide)).2⟩

/-- Store with a buyer at the start of the ordering flow. -/
def stC6 : Store := { sessions := [("whatsapp:+6", { state := .awaiting_product })] }

/-- C6: from `awaiting_product`, the messages "2" (product 2, unit price 100),
"3" (quantity) and "X" (location) leave the stored total at 100*3+200 = 500,
append exactly one order with total 500 to the orders log, and leave the buyer
in `handoff_seller` with `linked_seller` set. -/
theorem C6_order_flow_total_500 :
    (runBuyer cfg0 "whatsapp:+6" ["2", "3", "X"] stC6).map
      (fun st => ((get_session st "whatsapp:+6").state,
        (get_session st "whatsapp:+6").linked_seller,
        (get_session st "whatsapp:+6").data.total,
        st.orders.map (fun o => o.total)))
      = some (BState.handoff_seller, some cfg0.seller, some 500, [some 500]) := rfl
/-- Store whose only handoff buyer has the pathological identity `#assist`. -/
def stAssist : Store := { sessions := [("#assist", handoffSess)] }

/-- C7 counterexample: the buyer identity `#assist` is in a HANDOFF_* state,
yet `#switch #assist` does not set the active-chat binding to it — the message
contains the supervisor-escalation keyword `#assist`, so the escalation branch
captures it first. -/
theorem C7_counterexample :
    isHandoff (get_session stAssist "#assist").state = true
    ∧ (handle_seller cfg0 stAssist "#switch #assist").store.seller_active_chat = none
    ∧ (handle_seller cfg0 stAssist "#switch #assist").reply
        = "Supervisor notified. They’ll join shortly." :=
  ⟨rfl, rfl, rfl⟩

/-- C7 (amended): for a two-token `#switch <buyer_id>` command whose text
contains no supervisor-escalation keyword, a buyer not in a HANDOFF_* state
(including one with no stored session) gets the explanatory rejection with the
whole store unchanged, and a buyer in a HANDOFF_* state gets the binding set
to it (with sessions and orders untouched). -/
theorem C7_switch_requires_handoff (cfg : Config) (st : Store) (msg w b : String)
    (hkw : (SELLER_HELP_KEYWORDS.any fun k => strContains (pyLower (pyStrip msg)) k) = false)
    (hlist : pyLower (pyStrip msg) ≠ "#list")
    (hsw : pyStartsWith (pyLower (pyStrip msg)) "#switch" = true)
    (hparts : pySplit (pyStrip msg) = [w, b]) :
    (isHandoff (get_session st b).state = false →
      handle_seller cfg st msg = ⟨st, b ++ " is not in active handoff.", []⟩)
    ∧ (isHandoff (get_session st b).state = true →
      handle_seller cfg st msg =
        ⟨{ st with seller_active_chat := some b },
          "Switched active chat to " ++ b ++ ". Your next message will be sent to them.",
          []⟩) := by
  unfold handle_seller
  dsimp only
  rw [if_neg (by simp [hkw]), if_neg hlist, if_pos hsw]
  unfold seller_switch
  rw [hparts]
  dsimp only
  constructor
  · intro hnot
    rw [if_neg (by simp [hnot])]
  · intro hyes
    rw [if_pos hyes]

/-- C7 witness: both directions of the amended claim at concrete stores —
rejection for a buyer with no stored session, rebinding for a handoff buyer. -/
theorem C7_switch_requires_handoff_witness :
    (pySplit (pyStrip "#switch whatsapp:+3") = ["#switch", "whatsapp:+3"])
    ∧ isHandoff (get_session stC3 "whatsapp:+3").state = true
    ∧ handle_seller cfg0 stC3 "#switch whatsapp:+3" =
        ⟨{ stC3 with seller_active_chat := some "whatsapp:+3" },
          "Switched active chat to whatsapp:+3. Your next message will be sent to them.", []⟩
    ∧ isHandoff (get_session stC6 "whatsapp:+6").state = false
    ∧ handle_seller cfg0 stC6 "#switch whatsapp:+99" =
        ⟨stC6, "whatsapp:+99 is not in active handoff.", []⟩ :=
  ⟨by decide, rfl,
   (C7_switch_requires_handoff cfg0 stC3 "#switch whatsapp:+3" "#switch" "whatsapp:+3"
      (by decide) (by decide) (by decide) (by decide)).2 rfl,
   rfl,
   (C7_switch_requires_handoff cfg0 stC6 "#switch whatsapp:+99" "#switch" "whatsapp:+99"
      (by decide) (by decide) (by decide) (by decide)).1 rfl⟩

/-- C8 counterexample: for the handoff buyer with identity `#assist`, the
command `#end #assist` does not reset the session to `awaiting_product` or
remove `linked_seller` or send the "closed by agent" notice — the escalation
keyword `#assist` inside the message captures it first, moving the buyer to
`handoff_supervisor` and notifying the supervisor instead. -/
theorem C8_counterexample :
    isHandoff (get_session stAssist "#assist").state = true
    ∧ (get_session (handle_seller cfg0 stAssist "#end #assist").store "#assist").state
        = .handoff_supervisor
    ∧ (get_session (handle_seller cfg0 stAssist "#end #assist").store "#assist").linked_seller
        = some cfg0.seller
    ∧ (handle_seller cfg0 stAssist "#end #assist").effects =
        [.send cfg0.supervisor
          ("⚠️ Seller requested supervisor for chat with #assist.\nSeller note: #end #assist")] :=
  ⟨rfl, rfl, rfl, rfl⟩

/-- C8 (amended): for a two-token `#end <buyer_id>` command whose text contains
no supervisor-escalation keyword, naming a buyer in a HANDOFF_* state: the
buyer's session is reset to `awaiting_product` with `linked_seller` removed,
the "closed by agent" notice is sent to the buyer, and the active-chat binding
is cleared exactly when it currently points at that buyer (otherwise it is left
untouched). -/
theorem C8_end_closes_handoff (cfg : Config) (st : Store) (msg w b : String)
    (hkw : (SELLER_HELP_KEYWORDS.any fun k => strContains (pyLower (pyStrip msg)) k) = false)
    (hlist : pyLower (pyStrip msg) ≠ "#list")
    (hsw : pyStartsWith (pyLower (pyStrip msg)) "#switch" = false)
    (hend : pyStartsWith (pyLower (pyStrip msg)) "#end" = true)
    (hparts : pySplit (pyStrip msg) = [w, b])
    (hhand : isHandoff (get_session st b).state = true) :
    handle_seller cfg st msg =
      ⟨(if st.seller_active_chat = some b then
          { set_session st b
              { get_session st b with state := .awaiting_product, linked_seller := none }
            with seller_active_chat := none }
        else
          set_session st b
            { get_session st b with state := .awaiting_product, linked_seller := none }),
        "Closed chat with " ++ b ++ ".",
        [.send b "✅ Chat closed by seller. You're back with the bot. Type 'menu' to continue."]⟩ := by
  unfold handle_seller
  dsimp only
  rw [if_neg (by simp [hkw]), if_neg hlist, if_neg (by simp [hsw]), if_pos hend]
  unfold seller_end
  rw [hparts]
  dsimp only
  rw [if_pos hhand]
  rfl

/-- C8 witness: ending the currently bound buyer clears the binding. -/
theorem C8_end_closes_handoff_witness :
    (pySplit (pyStrip "#end whatsapp:+4") = ["#end", "whatsapp:+4"])
    ∧ isHandoff (get_session stRelayTarget "whatsapp:+4").state = true
    ∧ stRelayTarget.seller_active_chat = some "whatsapp:+4"
    ∧ handle_seller cfg0 stRelayTarget "#end whatsapp:+4" =
        ⟨(if stRelayTarget.seller_active_chat = some "whatsapp:+4" then
            { set_session stRelayTarget "whatsapp:+4"
                { get_session stRelayTarget "whatsapp:+4" with
                    state := .awaiting_product, linked_seller := none }
              with seller_active_chat := none }
          else
            set_session stRelayTarget "whatsapp:+4"
              { get_session stRelayTarget "whatsapp:+4" with
                  state := .awaiting_product, linked_seller := none }),
          "Closed chat with whatsapp:+4.",
          [.send "whatsapp:+4" "✅ Chat closed by seller. You're back with the bot. Type 'menu' to continue."]⟩ :=
  ⟨by decide, rfl, rfl,
   C8_end_closes_handoff cfg0 stRelayTarget "#end whatsapp:+4" "#end" "whatsapp:+4"
    (by decide) (by decide) (by decide) (by decide) (by decide) rfl⟩

/-- C9: a non-command seller message, when the active-chat binding points at a
buyer whose session is not in a HANDOFF_* state, is never relayed: the binding
is cleared, the staleness is reported in the reply, and no outbound effect is
emitted. -/
theorem C9_stale_binding_cleared_not_relayed (cfg : Config) (st : Store) (msg b : String)
    (hkw : (SELLER_HELP_KEYWORDS.any fun k => strContains (pyLower (pyStrip msg)) k) = false)
    (hlist : pyLower (pyStrip msg) ≠ "#list")
    (hsw : pyStartsWith (pyLower (pyStrip msg)) "#switch" = false)
    (hend : pyStartsWith (pyLower (pyStrip msg)) "#end" = false)
    (hbind : st.seller_active_chat = some b)
    (hstale : isHandoff (get_session st b).state = false) :
    handle_seller cfg st msg =
      ⟨{ st with seller_active_chat := none },
        "The chat with " ++ b
          ++ " is no longer in handoff. Please use a command or select a new active chat.",
        []⟩ := by
  rw [handle_seller_fallback cfg st msg hkw hlist hsw hend]
  unfold seller_relay
  rw [hbind]
  dsimp only
  rw [if_neg (by simp [hstale])]

/-- Store whose binding points at a buyer who is back in the ordering flow. -/
def stStale : Store :=
  { sessions := [("whatsapp:+9",
      { state := .awaiting_quantity,
        data := { product_id := some 2, product_name := some "korobo 1 1/4\" blue",
                  price := some 100 } })],
    seller_active_chat := some "whatsapp:+9" }

/-- C9 witness: a plain seller reply against a stale binding. -/
theorem C9_stale_binding_cleared_not_relayed_witness :
    (stStale.seller_active_chat = some "whatsapp:+9")
    ∧ isHandoff (get_session stStale "whatsapp:+9").state = false
    ∧ handle_seller cfg0 stStale "hello there" =
        ⟨{ stStale with seller_active_chat := none },
          "The chat with whatsapp:+9 is no longer in handoff. Please use a command or select a new active chat.",
          []⟩ :=
  ⟨rfl, rfl,
   C9_stale_binding_cleared_not_relayed cfg0 stStale "hello there" "whatsapp:+9"
    (by decide) (by decide) (by decide) (by decide) rfl rfl⟩
